import Mathlib

/-!
Verification development for the evaluator core of the nom-lisp interpreter
(`src/ast.rs`, `src/runtime/mod.rs`, `src/runtime/intrinsic.rs`,
`src/runtime/error.rs`).

The Rust code is shallowly embedded: syntax nodes become an inductive type,
the scope stack (`NSStack`, a `Vec` of `HashMap`s) becomes a structure holding
a list of association lists with the innermost frame at the head, and every
fallible operation returns an explicit outcome.  Rust panics (`unwrap`,
division by zero, out-of-bounds indexing) are modelled by a distinguished
`panic` outcome, and the recursive evaluator is indexed by fuel, running out
of fuel being a distinguished `timeout` outcome (host-stack exhaustion).
Machine integers (`i32`) are modelled as `Int` with explicit two's-complement
wrapping where the source can overflow.
-/

namespace NomLisp

/-- `ast.rs`: `enum Node`. `i32` literals are carried as `Int`. -/
inductive Node where
  | Identifier (s : String)
  | List (ns : List Node)
  | StringLiteral (s : String)
  | IntegerLiteral (i : Int)
  | Quote (n : Node)

mutual

/-- Structural equality on syntax nodes: `#[derive(PartialEq)]` on `Node`. -/
def nodeBEq : Node → Node → Bool
  | .Identifier a, .Identifier b => a == b
  | .List as, .List bs => nodeListBEq as bs
  | .StringLiteral a, .StringLiteral b => a == b
  | .IntegerLiteral a, .IntegerLiteral b => a == b
  | .Quote a, .Quote b => nodeBEq a b
  | _, _ => false

/-- Element-wise equality of node sequences (`Vec<Node>` equality). -/
def nodeListBEq : List Node → List Node → Bool
  | [], [] => true
  | a :: as, b :: bs => nodeBEq a b && nodeListBEq as bs
  | _, _ => false

end

mutual

theorem nodeBEq_iff : ∀ (a b : Node), nodeBEq a b = true ↔ a = b
  | .Identifier a, .Identifier b => by simp [nodeBEq]
  | .Identifier a, .List bs => by simp [nodeBEq]
  | .Identifier a, .StringLiteral b => by simp [nodeBEq]
  | .Identifier a, .IntegerLiteral b => by simp [nodeBEq]
  | .Identifier a, .Quote b => by simp [nodeBEq]
  | .List as, .Identifier b => by simp [nodeBEq]
  | .List as, .List bs => by
      have h := nodeListBEq_iff as bs
      simp [nodeBEq, h]
  | .List as, .StringLiteral b => by simp [nodeBEq]
  | .List as, .IntegerLiteral b => by simp [nodeBEq]
  | .List as, .Quote b => by simp [nodeBEq]
  | .StringLiteral a, .Identifier b => by simp [nodeBEq]
  | .StringLiteral a, .List bs => by simp [nodeBEq]
  | .StringLiteral a, .StringLiteral b => by simp [nodeBEq]
  | .StringLiteral a, .IntegerLiteral b => by simp [nodeBEq]
  | .StringLiteral a, .Quote b => by simp [nodeBEq]
  | .IntegerLiteral a, .Identifier b => by simp [nodeBEq]
  | .IntegerLiteral a, .List bs => by simp [nodeBEq]
  | .IntegerLiteral a, .StringLiteral b => by simp [nodeBEq]
  | .IntegerLiteral a, .IntegerLiteral b => by simp [nodeBEq]
  | .IntegerLiteral a, .Quote b => by simp [nodeBEq]
  | .Quote a, .Identifier b => by simp [nodeBEq]
  | .Quote a, .List bs => by simp [nodeBEq]
  | .Quote a, .StringLiteral b => by simp [nodeBEq]
  | .Quote a, .IntegerLiteral b => by simp [nodeBEq]
  | .Quote a, .Quote b => by
      have h := nodeBEq_iff a b
      simp [nodeBEq, h]

theorem nodeListBEq_iff : ∀ (as bs : List Node), nodeListBEq as bs = true ↔ as = bs
  | [], [] => by simp [nodeListBEq]
  | [], _ :: _ => by simp [nodeListBEq]
  | _ :: _, [] => by simp [nodeListBEq]
  | a :: as, b :: bs => by
      have h1 := nodeBEq_iff a b
      have h2 := nodeListBEq_iff as bs
      simp [nodeListBEq, h1, h2]

end

instance : DecidableEq Node :=
  fun a b => decidable_of_iff (nodeBEq a b = true) (nodeBEq_iff a b)

/-- `intrinsic.rs`: the native functions that can sit behind a
`Data::Intrinsic` function pointer (`IntrinsicRef`).  Dispatch is by this tag;
equality of `Data` deliberately ignores it, as in the source. -/
inductive IntrinsicFn where
  | f_let | quote | unquote | f_do | f_if | f_fn | debug
  | eq | add | sub | mul | div | modul | ne
  deriving DecidableEq

/-- `error.rs`: `enum LispError`. -/
inductive LispError where
  | TypeError (msg : String)
  | SyntaxError (msg : String)
  | StackEmpty
  | VariableNotFound (name : String)
  | Runtime (msg : String)
  deriving DecidableEq

/-- `runtime/mod.rs`: `enum Data`. -/
inductive Data where
  | Quote (n : Node)
  | Int (i : Int)
  | Str (s : String)
  | Intrinsic (name : String) (f : IntrinsicFn)
  | Function (params : List String) (body : Node)
  | Empty
  deriving DecidableEq

/-- `type Namespace = HashMap<String, Data>`, modelled as an association list;
`insert` prepends, `get` takes the first hit, so the newest binding wins
exactly as a `HashMap` overwrite does. -/
abbrev Namespace := List (String × Data)

/-- `HashMap::get`. -/
def nsGet (ns : Namespace) (name : String) : Option Data :=
  match ns with
  | [] => none
  | (k, v) :: rest => if k = name then some v else nsGet rest name

/-- `HashMap::insert`. -/
def nsInsert (ns : Namespace) (name : String) (v : Data) : Namespace :=
  (name, v) :: ns

/-- `runtime/mod.rs`: `struct NSStack { spaces: Vec<Namespace> }`.
The head of `spaces` is the innermost (top) frame, the last element the base
frame — the reverse of the `Vec` order, so `Vec::push`/`pop` act on the head
and `spaces.get_mut(0)` is the last element. -/
structure NSStack where
  spaces : List Namespace
  deriving DecidableEq

/-- `NSStack::new()`: a single empty base frame. -/
def NSStack.new : NSStack := ⟨[[]]⟩

/-- The frame scan of `NSStack::lookup` (`for space in self.spaces.iter().rev()`),
innermost frame first. -/
def lookupSpaces : List Namespace → String → Except LispError Data
  | [], name => .error (.VariableNotFound name)
  | ns :: rest, name =>
    match nsGet ns name with
    | some d => .ok d
    | none => lookupSpaces rest name

/-- `NSStack::lookup`. -/
def NSStack.lookup (s : NSStack) (name : String) : Except LispError Data :=
  lookupSpaces s.spaces name

/-- `NSStack::enter_scope`: push an empty frame. -/
def NSStack.enter_scope (s : NSStack) : NSStack := ⟨[] :: s.spaces⟩

/-- `NSStack::exit_scope`: `self.spaces.pop();` — unconditional, the popped
frame (and a pop on an empty stack) is silently discarded. -/
def NSStack.exit_scope (s : NSStack) : NSStack := ⟨s.spaces.tail⟩

/-- `NSStack::top`: `last_mut` of the `Vec`, i.e. the head frame here;
`StackEmpty` when there is none. -/
def NSStack.top (s : NSStack) : Except LispError Namespace :=
  match s.spaces with
  | [] => .error .StackEmpty
  | ns :: _ => .ok ns

/-- Writing through `top()`: replace the innermost frame after an insert.
`none` when the stack is empty (where `top()` returns `StackEmpty`). -/
def NSStack.insertTop (s : NSStack) (name : String) (v : Data) : Option NSStack :=
  match s.spaces with
  | [] => none
  | ns :: rest => some ⟨nsInsert ns name v :: rest⟩

/-- `NSStack::register_intrinsic`: insert `Data::Intrinsic(name, f)` into
frame 0 of the `Vec` — the base frame, the *last* element here. -/
def NSStack.register_intrinsic (s : NSStack) (name : String) (f : IntrinsicFn) :
    Except LispError NSStack :=
  match s.spaces.reverse with
  | [] => .error .StackEmpty
  | base :: above =>
    .ok ⟨(nsInsert base name (.Intrinsic name f) :: above).reverse⟩

/-- Outcome of evaluating a node: `Result<Data, LispError>` together with the
state of the (in Rust, in-place mutated) scope stack; `panic` models a Rust
panic (process abort), `timeout` models running out of fuel. -/
inductive Res where
  | ok (d : Data) (s : NSStack)
  | err (e : LispError) (s : NSStack)
  | panic
  | timeout
  deriving DecidableEq

/-- Outcome of a binding loop that produces no value, only a mutated stack. -/
inductive SRes where
  | ok (s : NSStack)
  | err (e : LispError) (s : NSStack)
  | panic
  | timeout
  deriving DecidableEq

/-- Two's-complement wrap-around at 32 bits (release-mode `i32` arithmetic). -/
def wrap32 (i : Int) : Int := (i + 2 ^ 31) % 2 ^ 32 - 2 ^ 31

/-- `i32::MIN`. -/
def i32Min : Int := -(2 ^ 31)

/-- One character of Rust's `Debug` escaping for strings. -/
def charDebug (c : Char) : String :=
  if c = '\\' then "\\\\"
  else if c = '\"' then "\\\""
  else if c = '\n' then "\\n"
  else if c = '\t' then "\\t"
  else String.singleton c

/-- Rust's `Debug` rendering of a `String`. -/
def strDebug (s : String) : String :=
  "\"" ++ String.join (s.toList.map charDebug) ++ "\""

mutual

/-- `#[derive(Debug)]` on `Node` — the `{:?}` rendering used in error
messages. -/
def debugNode : Node → String
  | .Identifier s => "Identifier(" ++ strDebug s ++ ")"
  | .List ns => "List([" ++ debugNodeList ns ++ "])"
  | .StringLiteral s => "StringLiteral(" ++ strDebug s ++ ")"
  | .IntegerLiteral i => "IntegerLiteral(" ++ toString i ++ ")"
  | .Quote n => "Quote(" ++ debugNode n ++ ")"

/-- Comma-separated `Debug` rendering of a node sequence. -/
def debugNodeList : List Node → String
  | [] => ""
  | [n] => debugNode n
  | n :: rest => debugNode n ++ ", " ++ debugNodeList rest

end

/-- `Debug` rendering of a `Vec<String>`. -/
def debugStrList (l : List String) : String :=
  "[" ++ go l ++ "]"
where
  go : List String → String
  | [] => ""
  | [s] => strDebug s
  | s :: rest => strDebug s ++ ", " ++ go rest

/-- `impl Debug for Data` (`runtime/mod.rs`): the function pointer of an
`Intrinsic` is not printed. -/
def debugData : Data → String
  | .Quote n => "Quote(" ++ debugNode n ++ ")"
  | .Int i => "Int(" ++ toString i ++ ")"
  | .Str s => "Str(" ++ strDebug s ++ ")"
  | .Intrinsic name _ => "Intrinsic(" ++ strDebug name ++ ")"
  | .Function ps body => "Function(" ++ debugStrList ps ++ ", " ++ debugNode body ++ ")"
  | .Empty => "Empty"

/-- The discriminant of a `Data` value (`core::mem::discriminant`). -/
def dataCtorIdx : Data → Nat
  | .Quote _ => 0
  | .Int _ => 1
  | .Str _ => 2
  | .Intrinsic _ _ => 3
  | .Function _ _ => 4
  | .Empty => 5

/-- `impl PartialEq for Data` (`runtime/mod.rs`): variant-wise, the function
pointer of an `Intrinsic` is ignored, the catch-all compares discriminants. -/
def dataEq : Data → Data → Bool
  | .Quote l, .Quote r => nodeBEq l r
  | .Int l, .Int r => l == r
  | .Str l, .Str r => l == r
  | .Intrinsic l _, .Intrinsic r _ => l == r
  | .Function l0 l1, .Function r0 r1 => l0 == r0 && nodeBEq l1 r1
  | a, b => dataCtorIdx a == dataCtorIdx b

/-- `Data::is_truthy` (`runtime/mod.rs`). -/
def Data.is_truthy : Data → Bool
  | .Quote q => nodeBEq q (.Identifier "true")
  | .Int i => i != 0
  | .Str s => !s.isEmpty
  | .Intrinsic _ _ => false
  | .Function _ _ => false
  | .Empty => false

/-- `intrinsic.rs`: `quote` — uses only `args.get(0)`, never evaluates. -/
def quote (s : NSStack) (args : List Node) : Res :=
  match args with
  | [] => .err (.SyntaxError "Quote received zero arguments.") s
  | n :: _ => .ok (.Quote n) s

/-- The argument-collection loop of `f_fn`: all members of the parameter list
must be identifiers, otherwise the loop returns early. -/
def collectIdentifiers : List Node → Option (List String)
  | [] => some []
  | .Identifier id :: rest => (collectIdentifiers rest).map (id :: ·)
  | _ :: _ => none

/-- `intrinsic.rs`: `f_fn` — builds a `Data::Function`; never evaluates. -/
def f_fn (s : NSStack) (args : List Node) : Res :=
  match args with
  | [] =>
    .err (.SyntaxError "Function declaration should get a list of arguments and a body!") s
  | arg :: _ =>
    match arg with
    | .List ns =>
      match collectIdentifiers ns with
      | none =>
        .err (.SyntaxError "When declaring function, all arguments should be identifiers.") s
      | some arglist =>
        match args.get? 1 with
        | none => .err (.SyntaxError "Function declaration doesn't have a body!") s
        | some body => .ok (.Function arglist body) s
    | _ => .err (.SyntaxError "Function arguments should be given in a list.") s

mutual

/-- `Node::eval` (`runtime/mod.rs`), indexed by fuel. -/
def eval : Nat → Node → NSStack → Res
  | 0, _, _ => .timeout
  | fuel + 1, node, s =>
    match node with
    | .Identifier x =>
      match s.lookup x with
      | .ok d => .ok d s
      | .error e => .err e s
    | .List ops =>
      match ops with
      | [] => .err (.SyntaxError "List expression with zero arguments.") s
      | head :: rest =>
        match eval fuel head s with
        | .ok f s1 => exec fuel f s1 rest
        | .err e s1 => .err e s1
        | .panic => .panic
        | .timeout => .timeout
    | .StringLiteral str => .ok (.Str str) s
    | .IntegerLiteral i => .ok (.Int i) s
    | .Quote boxed => .ok (.Quote boxed) s
termination_by fuel _node _s => (fuel, 0, 0)

/-- `Data::exec` (`runtime/mod.rs`): the application protocol.  Note that on
an argument-evaluation error the `?` operator returns *before* `exit_scope`
runs, so the pushed frame leaks. -/
def exec (fuel : Nat) (d : Data) (s : NSStack) (params : List Node) : Res :=
  match d with
  | .Intrinsic _ f => runIntrinsic fuel f s params
  | .Function argnames body =>
    if params.length ≠ argnames.length then
      .err (.SyntaxError "Wrong function argument count.") s
    else
      match bindArgs fuel argnames params s.enter_scope with
      | .ok s2 =>
        match eval fuel body s2 with
        | .ok r s3 => .ok r s3.exit_scope
        | .err e s3 => .err e s3.exit_scope
        | .panic => .panic
        | .timeout => .timeout
      | .err e s2 => .err e s2
      | .panic => .panic
      | .timeout => .timeout
  | _ => .err (.TypeError (debugData d ++ " is not callable.")) s
termination_by (fuel, 4, 0)

/-- The parameter-binding loop of `Data::exec`: evaluate each raw argument
(in the already-pushed callee frame) and insert it via `top()`. -/
def bindArgs (fuel : Nat) (argnames : List String) (params : List Node) (s : NSStack) : SRes :=
  match argnames, params with
  | a :: as, p :: ps =>
    match eval fuel p s with
    | .ok d s1 =>
      match s1.insertTop a d with
      | some s2 => bindArgs fuel as ps s2
      | none => .err .StackEmpty s1
    | .err e s1 => .err e s1
    | .panic => .panic
    | .timeout => .timeout
  | _, _ => .ok s
termination_by (fuel, 1, params.length)

/-- Dispatch through the `IntrinsicRef` function pointer. -/
def runIntrinsic (fuel : Nat) (f : IntrinsicFn) (s : NSStack) (args : List Node) : Res :=
  match f with
  | .f_let => f_let fuel s args
  | .quote => quote s args
  | .unquote => unquote fuel s args
  | .f_do => f_do fuel s args
  | .f_if => f_if fuel s args
  | .f_fn => f_fn s args
  | .debug => debug fuel s args
  | .eq => eq fuel s args
  | .add => add fuel s args
  | .sub => sub fuel s args
  | .mul => mul fuel s args
  | .div => div fuel s args
  | .modul => modul fuel s args
  | .ne => ne fuel s args
termination_by (fuel, 3, 0)

/-- `intrinsic.rs`: `f_let`.  Odd argument count → `SyntaxError`, then the
chunk loop. -/
def f_let (fuel : Nat) (s : NSStack) (args : List Node) : Res :=
  if args.length % 2 ≠ 0 then
    .err (.SyntaxError "Variable declaration mismatch.") s
  else
    match letLoop fuel s args with
    | .ok s1 => .ok .Empty s1
    | .err e s1 => .err e s1
    | .panic => .panic
    | .timeout => .timeout
termination_by (fuel, 2, 0)

/-- The `args.chunks(2)` loop of `f_let`.  The value expression is evaluated
with `.unwrap()` and the insert with `stack.top().unwrap()`: an evaluation
error or an empty stack is a panic, not a returned error. -/
def letLoop (fuel : Nat) (s : NSStack) (args : List Node) : SRes :=
  match args with
  | [] => .ok s
  | k :: v :: rest =>
    match k with
    | .Identifier id =>
      match eval fuel v s with
      | .ok d s1 =>
        match s1.insertTop id d with
        | some s2 => letLoop fuel s2 rest
        | none => .panic
      | .err _ _ => .panic
      | .panic => .panic
      | .timeout => .timeout
    | _ => .err (.TypeError (debugNode k ++ " is not an identifier.")) s
  | _ :: [] => .panic
termination_by (fuel, 1, args.length)

/-- `intrinsic.rs`: `f_do`. -/
def f_do (fuel : Nat) (s : NSStack) (args : List Node) : Res :=
  match args with
  | [] => .err (.SyntaxError "Empty do block") s
  | [node] => eval fuel node s
  | node :: r :: rs =>
    match eval fuel node s with
    | .ok _ s1 => f_do fuel s1 (r :: rs)
    | .err e s1 => .err e s1
    | .panic => .panic
    | .timeout => .timeout
termination_by (fuel, 1, args.length)

/-- `intrinsic.rs`: `f_if`. -/
def f_if (fuel : Nat) (s : NSStack) (args : List Node) : Res :=
  match args with
  | [a, b, c] =>
    match eval fuel a s with
    | .ok cond s1 => if cond.is_truthy then eval fuel b s1 else eval fuel c s1
    | .err e s1 => .err e s1
    | .panic => .panic
    | .timeout => .timeout
  | _ => .err (.SyntaxError "If statement should have 3 arguments.") s
termination_by (fuel, 1, 0)

/-- `intrinsic.rs`: `unquote` — uses only `args.get(0)`. -/
def unquote (fuel : Nat) (s : NSStack) (args : List Node) : Res :=
  match args with
  | [] => .err (.SyntaxError "Quote received zero arguments.") s
  | node :: _ =>
    match eval fuel node s with
    | .ok d s1 =>
      match d with
      | .Quote n => eval fuel n s1
      | _ => .err (.TypeError (debugData d ++ " is not a quote.")) s1
    | .err e s1 => .err e s1
    | .panic => .panic
    | .timeout => .timeout
termination_by (fuel, 1, 0)

/-- `intrinsic.rs`: `debug` — evaluates every argument in order (the
`println!` side effect is dropped in the embedding). -/
def debug (fuel : Nat) (s : NSStack) (args : List Node) : Res :=
  match args with
  | [] => .ok .Empty s
  | node :: rest =>
    match eval fuel node s with
    | .ok _ s1 => debug fuel s1 rest
    | .err e s1 => .err e s1
    | .panic => .panic
    | .timeout => .timeout
termination_by (fuel, 1, args.length)

/-- `intrinsic.rs`: `eq` (the `=` intrinsic). -/
def eq (fuel : Nat) (s : NSStack) (args : List Node) : Res :=
  match args with
  | [a, b] =>
    match eval fuel a s with
    | .ok left s1 =>
      match eval fuel b s1 with
      | .ok right s2 => .ok (.Int (if dataEq left right then 1 else 0)) s2
      | .err e s2 => .err e s2
      | .panic => .panic
      | .timeout => .timeout
    | .err e s1 => .err e s1
    | .panic => .panic
    | .timeout => .timeout
  | _ => .err (.SyntaxError "= only takes 2 arguments") s
termination_by (fuel, 1, 0)

/-- `intrinsic.rs`: `add` (the `+` intrinsic). -/
def add (fuel : Nat) (s : NSStack) (args : List Node) : Res :=
  match args with
  | [a, b] =>
    match eval fuel a s with
    | .ok left s1 =>
      match eval fuel b s1 with
      | .ok right s2 =>
        match left, right with
        | .Int x, .Int y => .ok (.Int (wrap32 (x + y))) s2
        | _, _ => .err (.TypeError "You can only add integers.") s2
      | .err e s2 => .err e s2
      | .panic => .panic
      | .timeout => .timeout
    | .err e s1 => .err e s1
    | .panic => .panic
    | .timeout => .timeout
  | _ => .err (.SyntaxError "+ only takes 2 arguments") s
termination_by (fuel, 1, 0)

/-- `intrinsic.rs`: `sub` (the `-` intrinsic; its type-error message is the
same copy-pasted "add" message as in the source). -/
def sub (fuel : Nat) (s : NSStack) (args : List Node) : Res :=
  match args with
  | [a, b] =>
    match eval fuel a s with
    | .ok left s1 =>
      match eval fuel b s1 with
      | .ok right s2 =>
        match left, right with
        | .Int x, .Int y => .ok (.Int (wrap32 (x - y))) s2
        | _, _ => .err (.TypeError "You can only add integers.") s2
      | .err e s2 => .err e s2
      | .panic => .panic
      | .timeout => .timeout
    | .err e s1 => .err e s1
    | .panic => .panic
    | .timeout => .timeout
  | _ => .err (.SyntaxError "- only takes 2 arguments") s
termination_by (fuel, 1, 0)

/-- `intrinsic.rs`: `mul` (the `*` intrinsic). -/
def mul (fuel : Nat) (s : NSStack) (args : List Node) : Res :=
  match args with
  | [a, b] =>
    match eval fuel a s with
    | .ok left s1 =>
      match eval fuel b s1 with
      | .ok right s2 =>
        match left, right with
        | .Int x, .Int y => .ok (.Int (wrap32 (x * y))) s2
        | _, _ => .err (.TypeError "You can only add integers.") s2
      | .err e s2 => .err e s2
      | .panic => .panic
      | .timeout => .timeout
    | .err e s1 => .err e s1
    | .panic => .panic
    | .timeout => .timeout
  | _ => .err (.SyntaxError "* only takes 2 arguments") s
termination_by (fuel, 1, 0)

/-- `intrinsic.rs`: `div` (the `/` intrinsic).  `a / b` in Rust panics on a
zero divisor and on `i32::MIN / -1`; otherwise it truncates toward zero. -/
def div (fuel : Nat) (s : NSStack) (args : List Node) : Res :=
  match args with
  | [a, b] =>
    match eval fuel a s with
    | .ok left s1 =>
      match eval fuel b s1 with
      | .ok right s2 =>
        match left, right with
        | .Int x, .Int y =>
          if y = 0 ∨ (x = i32Min ∧ y = -1) then .panic
          else .ok (.Int (Int.tdiv x y)) s2
        | _, _ => .err (.TypeError "You can only add integers.") s2
      | .err e s2 => .err e s2
      | .panic => .panic
      | .timeout => .timeout
    | .err e s1 => .err e s1
    | .panic => .panic
    | .timeout => .timeout
  | _ => .err (.SyntaxError "/ only takes 2 arguments") s
termination_by (fuel, 1, 0)

/-- `intrinsic.rs`: `modul` (the `mod` intrinsic).  `a % b` in Rust panics on
a zero divisor and on `i32::MIN % -1`; otherwise it is the truncated
remainder. -/
def modul (fuel : Nat) (s : NSStack) (args : List Node) : Res :=
  match args with
  | [a, b] =>
    match eval fuel a s with
    | .ok left s1 =>
      match eval fuel b s1 with
      | .ok right s2 =>
        match left, right with
        | .Int x, .Int y =>
          if y = 0 ∨ (x = i32Min ∧ y = -1) then .panic
          else .ok (.Int (Int.tmod x y)) s2
        | _, _ => .err (.TypeError "You can only add integers.") s2
      | .err e s2 => .err e s2
      | .panic => .panic
      | .timeout => .timeout
    | .err e s1 => .err e s1
    | .panic => .panic
    | .timeout => .timeout
  | _ => .err (.SyntaxError "/ only takes 2 arguments") s
termination_by (fuel, 1, 0)

/-- `intrinsic.rs`: `ne` (the `!=` intrinsic; its arity message is the
copy-pasted `=` message, as in the source). -/
def ne (fuel : Nat) (s : NSStack) (args : List Node) : Res :=
  match args with
  | [a, b] =>
    match eval fuel a s with
    | .ok left s1 =>
      match eval fuel b s1 with
      | .ok right s2 => .ok (.Int (if dataEq left right then 0 else 1)) s2
      | .err e s2 => .err e s2
      | .panic => .panic
      | .timeout => .timeout
    | .err e s1 => .err e s1
    | .panic => .panic
    | .timeout => .timeout
  | _ => .err (.SyntaxError "= only takes 2 arguments") s
termination_by (fuel, 1, 0)

end

/-- `Runtime::try_new` (`runtime/mod.rs`): a fresh stack with exactly the
seven registrations the constructor performs. -/
def Runtime.try_new : Except LispError NSStack := do
  let s := NSStack.new
  let s ← s.register_intrinsic "let" .f_let
  let s ← s.register_intrinsic "quote" .quote
  let s ← s.register_intrinsic "unquote" .unquote
  let s ← s.register_intrinsic "do" .f_do
  let s ← s.register_intrinsic "if" .f_if
  let s ← s.register_intrinsic "fn" .f_fn
  let s ← s.register_intrinsic "debug" .debug
  return s

/-- Observation helper: the error of an outcome, if any. -/
def Res.error? : Res → Option LispError
  | .err e _ => some e
  | _ => none

/-- Observation helper: the value of a successful outcome. -/
def Res.value? : Res → Option Data
  | .ok d _ => some d
  | _ => none

/-- Observation helper: the resulting stack of a non-panicking outcome. -/
def Res.stack? : Res → Option NSStack
  | .ok _ s => some s
  | .err _ s => some s
  | _ => none

/-- The stack `Runtime::try_new` actually builds: one base frame holding the
seven registered intrinsics, newest insertion first. -/
def registeredStack : NSStack := ⟨[[
  ("debug", .Intrinsic "debug" .debug),
  ("fn", .Intrinsic "fn" .f_fn),
  ("if", .Intrinsic "if" .f_if),
  ("do", .Intrinsic "do" .f_do),
  ("unquote", .Intrinsic "unquote" .unquote),
  ("quote", .Intrinsic "quote" .quote),
  ("let", .Intrinsic "let" .f_let)]]⟩

/-- The spec's end-to-end scenario `(do (let x 5) (+ x 3))`. -/
def exampleDoAdd : Node := .List [.Identifier "do",
  .List [.Identifier "let", .Identifier "x", .IntegerLiteral 5],
  .List [.Identifier "+", .Identifier "x", .IntegerLiteral 3]]

/-- The binding loop of the spec's wording of user-function application: for
each (parameter name, raw argument) pair in left-to-right order, evaluate the
raw argument and bind the result under the parameter's name in the current
innermost (i.e. the freshly pushed) frame. -/
def bindList_spec (fuel : Nat) (pairs : List (String × Node)) (s : NSStack) : SRes :=
  match pairs with
  | [] => .ok s
  | (name, arg) :: rest =>
    match eval fuel arg s with
    | .ok d s1 =>
      match s1.insertTop name d with
      | some s2 => bindList_spec fuel rest s2
      | none => .err .StackEmpty s1
    | .err e s1 => .err e s1
    | .panic => .panic
    | .timeout => .timeout

/-- User-function application as the spec words it: arity mismatch is a
`SyntaxError`; otherwise a new scope frame is pushed *first*, the (parameter,
raw argument) pairs are bound in that new frame in left-to-right order, the
body is evaluated in the new frame and its outcome, with the frame popped,
becomes the application's outcome. -/
def applyFunction_spec (fuel : Nat) (ps : List String) (body : Node) (s : NSStack)
    (args : List Node) : Res :=
  if args.length ≠ ps.length then
    .err (.SyntaxError "Wrong function argument count.") s
  else
    match bindList_spec fuel (ps.zip args) s.enter_scope with
    | .ok s2 =>
      match eval fuel body s2 with
      | .ok r s3 => .ok r s3.exit_scope
      | .err e s3 => .err e s3.exit_scope
      | .panic => .panic
      | .timeout => .timeout
    | .err e s2 => .err e s2
    | .panic => .panic
    | .timeout => .timeout

/-- The source's two-list binding loop agrees with the spec-side zipped loop
whenever the arity check has passed. -/
theorem bindArgs_eq_bindList_spec (fuel : Nat) :
    ∀ (ps : List String) (args : List Node) (s : NSStack),
      ps.length = args.length → bindArgs fuel ps args s = bindList_spec fuel (ps.zip args) s := by
  intro ps
  induction ps with
  | nil =>
    intro args s h
    cases args with
    | nil => simp [bindArgs, bindList_spec]
    | cons a as => simp at h
  | cons p ps ih =>
    intro args s h
    cases args with
    | nil => simp at h
    | cons a as =>
      simp only [List.zip_cons_cons]
      cases hev : eval fuel a s with
      | ok d s1 =>
        cases hin : s1.insertTop p d with
        | some s2 =>
          have h' : ps.length = as.length := by simpa using h
          simp [bindArgs, bindList_spec, hev, hin, ih as s2 h']
        | none => simp [bindArgs, bindList_spec, hev, hin]
      | err e s1 => simp [bindArgs, bindList_spec, hev]
      | panic => simp [bindArgs, bindList_spec, hev]
      | timeout => simp [bindArgs, bindList_spec, hev]

/-- Splitting the `f_let` chunk loop at an even-length prefix that completed
successfully. -/
theorem letLoop_append_ok (fuel : Nat) :
    ∀ (pre rest : List Node) (s s1 : NSStack),
      pre.length % 2 = 0 → letLoop fuel s pre = .ok s1 →
      letLoop fuel s (pre ++ rest) = letLoop fuel s1 rest
  | [], rest, s, s1, _, hok => by
    have hs : s = s1 := by simpa [letLoop] using hok
    simp [hs]
  | [k], _, _, _, h, _ => by simp at h
  | k :: v :: pre', rest, s, s1, h, hok => by
    have h' : pre'.length % 2 = 0 := by
      simp only [List.length_cons] at h
      omega
    cases k with
    | Identifier id =>
      cases hev : eval fuel v s with
      | ok d s2 =>
        cases hin : s2.insertTop id d with
        | some s3 =>
          have hok' : letLoop fuel s3 pre' = .ok s1 := by
            simpa [letLoop, hev, hin] using hok
          have := letLoop_append_ok fuel pre' rest s3 s1 h' hok'
          simpa [letLoop, hev, hin] using this
        | none => simp [letLoop, hev, hin] at hok
      | err e s2 => simp [letLoop, hev] at hok
      | panic => simp [letLoop, hev] at hok
      | timeout => simp [letLoop, hev] at hok
    | List ns => simp [letLoop] at hok
    | StringLiteral str => simp [letLoop] at hok
    | IntegerLiteral i => simp [letLoop] at hok
    | Quote n => simp [letLoop] at hok

/-- C1: the spec claims the arithmetic/comparison intrinsics (`+ - * / mod =
!=`) are registered into the base frame at startup alongside `let`, `do`,
`if`, `fn`, `quote`, `unquote`, `debug`, and that `(do (let x 5) (+ x 3))`
evaluates to `Int(8)` on a fresh runtime.  `Runtime::try_new` registers only
the seven non-arithmetic intrinsics — the arithmetic functions exist in
`intrinsic.rs` but are never registered — so the lookup of `+` fails and the
example evaluates to a `VariableNotFound("+")` error instead of `Int(8)`. -/
theorem C1_arithmetic_intrinsics_not_registered :
    Runtime.try_new = .ok registeredStack
    ∧ registeredStack.lookup "let" = .ok (.Intrinsic "let" .f_let)
    ∧ registeredStack.lookup "do" = .ok (.Intrinsic "do" .f_do)
    ∧ registeredStack.lookup "if" = .ok (.Intrinsic "if" .f_if)
    ∧ registeredStack.lookup "fn" = .ok (.Intrinsic "fn" .f_fn)
    ∧ registeredStack.lookup "quote" = .ok (.Intrinsic "quote" .quote)
    ∧ registeredStack.lookup "unquote" = .ok (.Intrinsic "unquote" .unquote)
    ∧ registeredStack.lookup "debug" = .ok (.Intrinsic "debug" .debug)
    ∧ registeredStack.lookup "+" = .error (.VariableNotFound "+")
    ∧ registeredStack.lookup "-" = .error (.VariableNotFound "-")
    ∧ registeredStack.lookup "*" = .error (.VariableNotFound "*")
    ∧ registeredStack.lookup "/" = .error (.VariableNotFound "/")
    ∧ registeredStack.lookup "mod" = .error (.VariableNotFound "mod")
    ∧ registeredStack.lookup "=" = .error (.VariableNotFound "=")
    ∧ registeredStack.lookup "!=" = .error (.VariableNotFound "!=")
    ∧ (eval 20 exampleDoAdd registeredStack).error? = some (.VariableNotFound "+")
    ∧ (eval 20 exampleDoAdd registeredStack).value? = none := by
  refine ⟨rfl, rfl, rfl, rfl, rfl, rfl, rfl, rfl, rfl, rfl, rfl, rfl, rfl, rfl, rfl, ?_, ?_⟩ <;>
    simp [registeredStack, exampleDoAdd, eval, exec, runIntrinsic, f_let, letLoop, f_do,
      NSStack.lookup, lookupSpaces, nsGet, NSStack.insertTop, nsInsert, Res.error?, Res.value?]

/-- C2: the spec demands scope-stack depth balance on every exit path of a
user-function application, including a failure while evaluating an argument.
In `Data::exec` the `?` on the argument evaluation returns before
`exit_scope`, so the pushed frame leaks: applying `(fn (a) a)` to the unbound
identifier `nope` on a one-frame stack returns the error with a two-frame
stack. -/
theorem C2_frame_leak_on_argument_error :
    NSStack.new.spaces.length = 1
    ∧ exec 5 (.Function ["a"] (.Identifier "a")) NSStack.new [.Identifier "nope"]
        = .err (.VariableNotFound "nope") ⟨[[], []]⟩
    ∧ (NSStack.mk [[], []]).spaces.length = 2 := by
  refine ⟨rfl, ?_, rfl⟩
  simp [exec, bindArgs, eval, NSStack.lookup, lookupSpaces, nsGet, NSStack.new,
    NSStack.enter_scope]

/-- C3: the spec says every evaluation failure inside `let` is returned to
the caller as a value-or-error result, never aborting the process.  `f_let`
calls `i[1].eval(stack).unwrap()`, so when the value expression of a pair
errors (here: the unbound identifier `nope`, whose evaluation error is shown
in the first conjunct) the process panics instead of returning the error. -/
theorem C3_let_panics_on_value_error :
    eval 5 (.Identifier "nope") NSStack.new = .err (.VariableNotFound "nope") NSStack.new
    ∧ f_let 5 NSStack.new [.Identifier "x", .Identifier "nope"] = .panic := by
  constructor <;>
    simp [f_let, letLoop, eval, NSStack.lookup, lookupSpaces, nsGet, NSStack.new]

/-- C4: `(mod 10 3)` is `Int(1)` as the spec says, but `(mod 10 0)` and
`(/ 10 0)` panic — `a % b` and `a / b` in Rust abort on a zero divisor and
the intrinsics perform no check — instead of producing the reported `Runtime`
error the spec requires. -/
theorem C4_mod_div_by_zero_panic :
    modul 5 NSStack.new [.IntegerLiteral 10, .IntegerLiteral 3] = .ok (.Int 1) NSStack.new
    ∧ modul 5 NSStack.new [.IntegerLiteral 10, .IntegerLiteral 0] = .panic
    ∧ div 5 NSStack.new [.IntegerLiteral 10, .IntegerLiteral 0] = .panic := by
  refine ⟨?_, ?_, ?_⟩ <;>
    norm_num [modul, div, eval, Int.tmod, i32Min]

/-- C5: applying a `Data::Function` follows the spec's protocol exactly:
argument-count mismatch is a `SyntaxError`; otherwise a new scope frame is
pushed first, each raw argument node is evaluated and bound under the
corresponding parameter name in that new, already-pushed frame in
left-to-right order, and the body is evaluated in the new frame, its outcome
becoming the application's outcome. -/
theorem C5_user_function_application (fuel : Nat) (ps : List String) (body : Node)
    (s : NSStack) (args : List Node) :
    exec fuel (.Function ps body) s args = applyFunction_spec fuel ps body s args := by
  by_cases h : args.length = ps.length
  · have hb := bindArgs_eq_bindList_spec fuel ps args s.enter_scope h.symm
    simp [exec, applyFunction_spec, h, hb]
  · simp [exec, applyFunction_spec, h]

/-- C6 counterexample: the claim that the scope stack is never empty under
the public operations, and that removing the base frame is signaled as an
error, is false — a single `exit_scope` on a freshly constructed stack
silently pops the base frame, leaving the empty stack with no error. -/
theorem C6_counterexample_silent_base_pop :
    NSStack.new.exit_scope = (⟨[]⟩ : NSStack) := rfl

/-- C6 (amended): the freshly constructed stack has exactly one frame, but
`exit_scope` pops unconditionally and silently, so one `exit_scope` empties
the stack without any error at the call site; the emptiness is signaled only
by later `top()` or `register_intrinsic` calls, which return `StackEmpty`. -/
theorem C6_exit_scope_unchecked :
    NSStack.new.spaces.length = 1
    ∧ NSStack.new.exit_scope = (⟨[]⟩ : NSStack)
    ∧ (⟨[]⟩ : NSStack).top = .error .StackEmpty
    ∧ (⟨[]⟩ : NSStack).register_intrinsic "let" .f_let = .error .StackEmpty :=
  ⟨rfl, rfl, rfl, rfl⟩

/-- C7: `f_if` with an argument count other than 3 is a `SyntaxError`; with
exactly 3 it evaluates arg0 and then evaluates exactly the branch selected by
truthiness (the untaken branch is never evaluated: the outcome does not
depend on it), where truthiness is: `Quote q` is true iff `q` is the
identifier `true`; `Int i` is true iff `i ≠ 0`; `Str s` is true iff `s` is
non-empty; `Intrinsic`, `Function` and `Empty` are always false. -/
theorem C7_if_semantics (fuel : Nat) (s s' : NSStack) (args : List Node)
    (a b c b' c' : Node) (cond : Data) (q : Node) (i : Int) (str nm : String)
    (fn : IntrinsicFn) (ps : List String) (bd : Node) :
    (args.length ≠ 3 → f_if fuel s args = .err (.SyntaxError "If statement should have 3 arguments.") s)
    ∧ (eval fuel a s = .ok cond s' →
        (cond.is_truthy = true →
          f_if fuel s [a, b, c] = eval fuel b s' ∧ f_if fuel s [a, b, c] = f_if fuel s [a, b, c'])
        ∧ (cond.is_truthy = false →
          f_if fuel s [a, b, c] = eval fuel c s' ∧ f_if fuel s [a, b, c] = f_if fuel s [a, b', c]))
    ∧ (Data.is_truthy (.Quote q) = true ↔ q = .Identifier "true")
    ∧ (Data.is_truthy (.Int i) = true ↔ i ≠ 0)
    ∧ (Data.is_truthy (.Str str) = true ↔ str ≠ "")
    ∧ Data.is_truthy (.Intrinsic nm fn) = false
    ∧ Data.is_truthy (.Function ps bd) = false
    ∧ Data.is_truthy .Empty = false := by
  refine ⟨?_, ?_, ?_, ?_, ?_, rfl, rfl, rfl⟩
  · intro h
    rcases args with _ | ⟨x1, _ | ⟨x2, _ | ⟨x3, _ | ⟨x4, rest⟩⟩⟩⟩ <;>
      first
        | (exact absurd rfl h)
        | simp [f_if]
  · intro hev
    constructor
    · intro ht
      constructor <;> simp [f_if, hev, ht]
    · intro hf
      constructor <;> simp [f_if, hev, hf]
  · simp [Data.is_truthy, nodeBEq_iff]
  · simp [Data.is_truthy]
  · simp [Data.is_truthy, ← String.isEmpty_iff]

/-- C7 witness: `(if 0 1 2)` takes the false branch. -/
theorem C7_witness :
    f_if 2 NSStack.new [.IntegerLiteral 0, .IntegerLiteral 1, .IntegerLiteral 2]
      = eval 2 (.IntegerLiteral 2) NSStack.new := by
  have h := (C7_if_semantics 2 NSStack.new NSStack.new
    [.IntegerLiteral 0, .IntegerLiteral 1, .IntegerLiteral 2]
    (.IntegerLiteral 0) (.IntegerLiteral 1) (.IntegerLiteral 2)
    (.IntegerLiteral 1) (.IntegerLiteral 2) (.Int 0)
    (.Identifier "y") 0 "" "" .f_let [] (.Identifier "y")).2.1
  exact ((h (by simp [eval])).2 (by simp [Data.is_truthy])).1

/-- C8: `Data` equality is variant-wise: two `Quote`s are equal iff their
inner nodes are structurally equal, two `Function`s iff parameter-name
sequences and bodies both are, two `Intrinsic`s iff their names are equal
regardless of the underlying function, and values of different variants are
never equal. -/
theorem C8_data_equality (l r : Node) (l0 r0 : List String) (l1 r1 : Node)
    (nl nr : String) (fl fr : IntrinsicFn) (d d' : Data) :
    (dataEq (.Quote l) (.Quote r) = true ↔ l = r)
    ∧ (dataEq (.Function l0 l1) (.Function r0 r1) = true ↔ (l0 = r0 ∧ l1 = r1))
    ∧ (dataEq (.Intrinsic nl fl) (.Intrinsic nr fr) = true ↔ nl = nr)
    ∧ (dataCtorIdx d ≠ dataCtorIdx d' → dataEq d d' = false) := by
  refine ⟨?_, ?_, ?_, ?_⟩
  · simp [dataEq, nodeBEq_iff]
  · simp [dataEq, nodeBEq_iff]
  · simp [dataEq]
  · intro h
    cases d <;> cases d' <;> simp_all [dataEq, dataCtorIdx]

/-- C8 witness: the cross-variant case at `Int 1` and `Empty`. -/
theorem C8_witness : dataEq (.Int 1) .Empty = false := by
  have h := (C8_data_equality (.Identifier "y") (.Identifier "y") [] []
    (.Identifier "y") (.Identifier "y") "" "" .f_let .f_let (.Int 1) .Empty).2.2.2
  exact h (by decide)

/-- C9: `f_let` is not atomic on error: with an even argument count, if after
an even-length prefix of pairs has been processed successfully (ending in
stack `s1`) the next key is not an identifier, the call returns a `TypeError`
— but with the stack left at `s1`, i.e. all bindings made for the earlier
pairs remain inserted, rather than the stack being restored to its pre-call
state. -/
theorem C9_let_not_atomic (fuel : Nat) (s s1 : NSStack) (pre : List Node) (k v : Node)
    (rest : List Node) (hpre : pre.length % 2 = 0) (hrest : rest.length % 2 = 0)
    (hloop : letLoop fuel s pre = .ok s1) (hk : ∀ id, k ≠ .Identifier id) :
    f_let fuel s (pre ++ k :: v :: rest)
      = .err (.TypeError (debugNode k ++ " is not an identifier.")) s1 := by
  have hlen : (pre ++ k :: v :: rest).length % 2 = 0 := by
    simp only [List.length_append, List.length_cons]
    omega
  rw [f_let, if_neg (by omega)]
  rw [letLoop_append_ok fuel pre (k :: v :: rest) s s1 hpre hloop]
  cases k with
  | Identifier id => exact absurd rfl (hk id)
  | List ns => simp [letLoop]
  | StringLiteral str => simp [letLoop]
  | IntegerLiteral i => simp [letLoop]
  | Quote n => simp [letLoop]

/-- C9 witness: `(let x 5 7 8)` fails with a `TypeError` on the key `7`, yet
the earlier binding `x ↦ 5` remains in the top frame of the returned
stack. -/
theorem C9_witness :
    f_let 3 NSStack.new [.Identifier "x", .IntegerLiteral 5, .IntegerLiteral 7, .IntegerLiteral 8]
        = .err (.TypeError (debugNode (.IntegerLiteral 7) ++ " is not an identifier."))
            ⟨[[("x", .Int 5)]]⟩
      ∧ nsGet [("x", .Int 5)] "x" = some (.Int 5) := by
  constructor
  · exact C9_let_not_atomic 3 NSStack.new ⟨[[("x", .Int 5)]]⟩
      [.Identifier "x", .IntegerLiteral 5] (.IntegerLiteral 7) (.IntegerLiteral 8) []
      rfl rfl
      (by simp [letLoop, eval, NSStack.new, NSStack.insertTop, nsInsert])
      (fun id h => Node.noConfusion h)
  · rfl

/-- C10: `quote` and `unquote` use only their first raw argument: with two or
more raw arguments no arity error is reported, `quote` returns
`Data::Quote` of the first argument and `unquote` behaves exactly as if
called on the first argument alone. -/
theorem C10_quote_unquote_extra_args (fuel : Nat) (s : NSStack) (a b : Node)
    (rest : List Node) :
    quote s (a :: b :: rest) = .ok (.Quote a) s
    ∧ (quote s (a :: b :: rest)).error? = none
    ∧ unquote fuel s (a :: b :: rest) = unquote fuel s [a] := by
  refine ⟨rfl, rfl, ?_⟩
  simp only [unquote]

end NomLisp
